import Mathlib

/-!
Shallow embedding of the `langgraph-service` conversation/swarm orchestration
core (`app/graph/state.py`, `app/graph/builder.py`, `app/nodes/input_nodes.py`,
`app/nodes/routing_nodes.py`, `app/nodes/execution_nodes.py`,
`app/nodes/swarm_nodes.py`).

Modelling conventions:
* Python `str` is Lean `String`; slicing and character tests are performed on
  `String.toList` so that every operation is executable and kernel-reducible.
* Python truthiness of optional strings (`if state.error:`) is `pyTruthy`:
  `None` and `""` are falsy.
* Fallible Python code (an uncaught `IndexError`) is modelled with `Except`.
* Wall-clock durations (`datetime.utcnow()` deltas) are modelled as `0`;
  no claim depends on them.  The `artifacts: list[dict[str, Any]]` field of
  `AgentResult` is omitted (untyped payload, read by no modelled code).
* The LLM call inside `execute_ai` and the per-agent exception outcome inside
  `execute_agents` are external effects; they are passed in as explicit
  oracles (`Except String String`, `String → Option String`).
-/

namespace Lugh

/-! ## Python string helpers -/

/-- Whitespace characters recognised by Python `str.strip` / `str.split`. -/
def pyIsSpace (c : Char) : Bool :=
  (c == ' ') || (c == '\t') || (c == '\n') || (c == '\r') ||
    (c == Char.ofNat 11) || (c == Char.ofNat 12)

/-- Python `str.strip()` with no arguments. -/
def pyStrip (sStr : String) : String :=
  String.mk (((sStr.toList.dropWhile pyIsSpace).reverse.dropWhile pyIsSpace).reverse)

/-- Python `str.lower()` (ASCII-adequate for the inputs used here). -/
def pyLower (sStr : String) : String :=
  String.mk (sStr.toList.map Char.toLower)

/-- Python `str.startswith(c)` for a single-character prefix. -/
def pyStartsWith (sStr : String) (c : Char) : Bool :=
  match sStr.toList with
  | [] => false
  | c0 :: _ => c0 == c

/-- Python truthiness of an optional string: `None` and `""` are falsy. -/
def pyTruthy : Option String → Bool
  | none => false
  | some sStr => decide (sStr ≠ "")

/-- Python `needle in haystack` for strings (substring containment). -/
def pyInStr (needle haystack : String) : Bool :=
  decide (needle.toList <:+: haystack.toList)

/-- Python `s.split(maxsplit=1)`: split on whitespace runs, at most once.
`""` yields `[]`; a remainder consisting only of whitespace is dropped. -/
def pySplitMax1 (sStr : String) : List String :=
  let cs := sStr.toList.dropWhile pyIsSpace
  if cs.isEmpty then []
  else
    let tok := cs.takeWhile (fun c => !pyIsSpace c)
    let rest := (cs.dropWhile (fun c => !pyIsSpace c)).dropWhile pyIsSpace
    if rest.isEmpty then [String.mk tok] else [String.mk tok, String.mk rest]

/-- Python `str.take`-style slice `s[:n]` (character based). -/
def pySlice (sStr : String) (n : Nat) : String :=
  String.mk (sStr.toList.take n)

def slashChar : Char := Char.ofNat 47

def dquoteChar : Char := Char.ofNat 34

def squoteChar : Char := Char.ofNat 39

/-! ## Swarm data model (`app/graph/state.py`) -/

/-- `AgentRole` enum from `state.py`. -/
inductive AgentRole
  | architect
  | implementer
  | reviewer
  | tester
  | researcher
  | documenter
  | security
  | performance
  | custom
deriving DecidableEq

/-- Value of an `AgentRole`, as in `role.value`. -/
def roleValue : AgentRole → String
  | AgentRole.architect => "architect"
  | AgentRole.implementer => "implementer"
  | AgentRole.reviewer => "reviewer"
  | AgentRole.tester => "tester"
  | AgentRole.researcher => "researcher"
  | AgentRole.documenter => "documenter"
  | AgentRole.security => "security"
  | AgentRole.performance => "performance"
  | AgentRole.custom => "custom"

/-- `SwarmPhase` enum from `state.py`. -/
inductive SwarmPhase
  | decomposing
  | spawning
  | running
  | synthesizing
  | completed
  | failed
deriving DecidableEq

/-- Status literal of a `SubTask` (`Literal["pending", "ready", "running",
"completed", "failed"]`). -/
inductive Status
  | pending
  | ready
  | running
  | completed
  | failed
deriving DecidableEq

/-- Priority literal of a `SubTask`. -/
inductive Priority
  | critical
  | high
  | medium
  | low
deriving DecidableEq

/-- Strategy literal of a `SwarmState`. -/
inductive Strategy
  | parallel
  | sequential
  | hybrid
deriving DecidableEq

/-- `SubTask` model from `state.py`. -/
structure SubTask where
  id : String
  role : AgentRole
  title : String
  description : String
  prompt : String
  dependencies : List String := []
  priority : Priority := Priority.medium
  requires_tools : Bool := false
  status : Status := Status.pending
deriving DecidableEq

/-- `AgentResult` model from `state.py` (the untyped `artifacts` payload is
omitted; no modelled code reads it). -/
structure AgentResult where
  sub_task_id : String
  role : AgentRole
  summary : String
  details : String := ""
  recommendations : List String := []
  success : Bool := true
  duration_ms : Nat := 0
  tokens_used : Nat := 0
deriving DecidableEq

/-- `SwarmState` model from `state.py` (`started_at` is omitted: wall-clock
time, read by no modelled code). -/
structure SwarmState where
  swarm_id : String
  conversation_id : String
  user_request : String
  cwd : String
  sub_tasks : List SubTask := []
  strategy : Option Strategy := none
  running_agents : List String := []
  completed_results : List AgentResult := []
  synthesized_summary : Option String := none
  phase : SwarmPhase := SwarmPhase.decomposing
  error : Option String := none
deriving DecidableEq

/-! ## Swarm nodes (`app/nodes/swarm_nodes.py`) -/

/-- Request keyword test for the build branch of `decompose_task`:
`"build" in request_lower or "implement" in request_lower`. -/
def buildKeyword (request : String) : Bool :=
  pyInStr "build" (pyLower request) || pyInStr "implement" (pyLower request)

/-- Request keyword test for the review branch of `decompose_task`:
`"review" in request_lower or "audit" in request_lower`. -/
def reviewKeyword (request : String) : Bool :=
  pyInStr "review" (pyLower request) || pyInStr "audit" (pyLower request)

/-- `decompose_task` from `swarm_nodes.py`.  The source draws sub-task ids from
`uuid.uuid4()`; the id supply is abstracted as `gen` (`id = "task-" ++ gen i`).
The build branch builds the three tasks with empty dependencies and then wires
`sub_tasks[1].dependencies = [sub_tasks[0].id]` and
`sub_tasks[2].dependencies = [sub_tasks[1].id]`; the net lists are written
directly below. -/
def decomposeTask (gen : Nat → String) (s : SwarmState) : SwarmState :=
  let sub_tasks : List SubTask :=
    if buildKeyword s.user_request then
      let id0 := "task-" ++ gen 0
      let id1 := "task-" ++ gen 1
      let id2 := "task-" ++ gen 2
      [ { id := id0, role := AgentRole.architect, title := "Architecture Design",
          description := "Design the high-level architecture and component structure",
          prompt := "Design the architecture for: " ++ s.user_request,
          dependencies := [], priority := Priority.critical, requires_tools := false },
        { id := id1, role := AgentRole.implementer, title := "Core Implementation",
          description := "Implement the core functionality",
          prompt := "Implement: " ++ s.user_request,
          dependencies := [id0], priority := Priority.high, requires_tools := true },
        { id := id2, role := AgentRole.tester, title := "Testing",
          description := "Write and run tests",
          prompt := "Write tests for: " ++ s.user_request,
          dependencies := [id1], priority := Priority.high, requires_tools := true } ]
    else if reviewKeyword s.user_request then
      [ { id := "task-" ++ gen 0, role := AgentRole.reviewer, title := "Code Review",
          description := "Review code quality and patterns",
          prompt := "Review: " ++ s.user_request,
          dependencies := [], priority := Priority.high, requires_tools := true },
        { id := "task-" ++ gen 1, role := AgentRole.security, title := "Security Audit",
          description := "Check for security vulnerabilities",
          prompt := "Security audit: " ++ s.user_request,
          dependencies := [], priority := Priority.high, requires_tools := true },
        { id := "task-" ++ gen 2, role := AgentRole.performance, title := "Performance Analysis",
          description := "Analyze performance characteristics",
          prompt := "Performance analysis: " ++ s.user_request,
          dependencies := [], priority := Priority.medium, requires_tools := true } ]
    else
      [ { id := "task-" ++ gen 0, role := AgentRole.researcher, title := "Research & Analysis",
          description := "Research and analyze the request",
          prompt := s.user_request,
          dependencies := [], priority := Priority.high, requires_tools := false } ]
  let strat : Strategy :=
    if buildKeyword s.user_request then Strategy.sequential
    else if reviewKeyword s.user_request then Strategy.parallel
    else Strategy.sequential
  let marked := sub_tasks.map (fun t =>
    if t.dependencies.isEmpty then { t with status := Status.ready } else t)
  { s with sub_tasks := marked, strategy := some strat, phase := SwarmPhase.spawning }

/-- Set of already-completed sub-task ids
(`completed_ids = {r.sub_task_id for r in state.completed_results}`);
modelled as the list of ids, with `List.dedup` applied where the source takes
the set's cardinality. -/
def completedIds (s : SwarmState) : List String :=
  s.completed_results.map (fun r => r.sub_task_id)

/-- Dependency check `all(dep in completed_ids for dep in task.dependencies)`. -/
def depsComplete (completed : List String) (t : SubTask) : Bool :=
  t.dependencies.all (fun dep => decide (dep ∈ completed))

/-- Per-task promotion step of `spawn_agents`: a `pending` task whose
dependencies are all complete becomes `ready`. -/
def promoteTask (completed : List String) (t : SubTask) : SubTask :=
  if t.status = Status.pending ∧ depsComplete completed t then
    { t with status := Status.ready }
  else t

def hasStatus (st : Status) (t : SubTask) : Bool :=
  decide (t.status = st)

/-- Combined effect of one `spawn_agents` pass on a single task: promotion
followed by `task.status = "running"` for every ready task. -/
def promoteThenRun (completed : List String) (t : SubTask) : SubTask :=
  let u := promoteTask completed t
  if u.status = Status.ready then { u with status := Status.running } else u

/-- `spawn_agents` from `swarm_nodes.py`.  In the source the promotion mutates
`state.sub_tasks` in place; when `ready_tasks` is empty no task was promoted
(every promoted task lands in `ready_tasks`), so the two early-return branches
leave `sub_tasks` unchanged, as written here. -/
def spawnAgents (s : SwarmState) : SwarmState :=
  let completed := completedIds s
  let promoted := s.sub_tasks.map (promoteTask completed)
  let ready_tasks := promoted.filter (hasStatus Status.ready)
  if ready_tasks.isEmpty then
    if (completedIds s).dedup.length = s.sub_tasks.length then
      { s with phase := SwarmPhase.synthesizing }
    else
      s
  else
    { s with
      sub_tasks := s.sub_tasks.map (promoteThenRun completed),
      running_agents := s.running_agents ++ ready_tasks.map (fun t => t.id),
      phase := SwarmPhase.running }

/-- Result produced by `execute_single_agent` for one task.  `outcome t.id =
none` models the normal path (always `success=True` in the source's simulated
execution); `outcome t.id = some e` models a raised exception with text `e`.
Wall-clock `duration_ms` is modelled as `0`. -/
def mkAgentResult (outcome : String → Option String) (t : SubTask) : AgentResult :=
  match outcome t.id with
  | none =>
    { sub_task_id := t.id, role := t.role,
      summary := "Completed " ++ t.title ++ ": " ++ pySlice t.description 100,
      details := "Agent " ++ roleValue t.role ++ " processed: " ++ pySlice t.prompt 200,
      success := true, duration_ms := 0, tokens_used := 500 }
  | some e =>
    { sub_task_id := t.id, role := t.role,
      summary := "Failed: " ++ e, details := "",
      success := false, duration_ms := 0, tokens_used := 0 }

/-- Lookup in `result_map = {r.sub_task_id: r for r in results}` (a Python dict
comprehension keeps the last entry for a repeated key). -/
def resultFor (results : List AgentResult) (tid : String) : Option AgentResult :=
  (results.filter (fun r => decide (r.sub_task_id = tid))).getLast?

/-- Per-task status update of `execute_agents`
(`if task.id in result_map: task.status = "completed" if result.success else "failed"`). -/
def execUpd (results : List AgentResult) (t : SubTask) : SubTask :=
  match resultFor results t.id with
  | some r => { t with status := if r.success then Status.completed else Status.failed }
  | none => t

/-- `execute_agents` from `swarm_nodes.py`.  The concurrency semaphore only
bounds simultaneity; the batch joins on all results, so the state update is
the sequential composition written here. -/
def executeAgents (outcome : String → Option String) (s : SwarmState) : SwarmState :=
  let running_tasks := s.sub_tasks.filter (hasStatus Status.running)
  if running_tasks.isEmpty then
    { s with phase := SwarmPhase.spawning }
  else
    let results := running_tasks.map (mkAgentResult outcome)
    { s with
      sub_tasks := s.sub_tasks.map (execUpd results),
      running_agents := [],
      completed_results := s.completed_results ++ results,
      phase := SwarmPhase.spawning }

/-- Python `str.title()` restricted to the single-word role values used here
(capitalises the first character). -/
def pyTitleWord (sStr : String) : String :=
  match sStr.toList with
  | [] => ""
  | c :: cs => String.mk (c.toUpper :: cs)

/-- Markdown section emitted for one `AgentResult` by `synthesize_results`. -/
def resultSection (r : AgentResult) : List String :=
  ["#### " ++ pyTitleWord (roleValue r.role) ++ " [" ++ (if r.success then "pass" else "fail") ++ "]",
   r.summary] ++
  (if pyTruthy (some r.details) then ["\n" ++ pySlice r.details 500] else []) ++
  [""]

/-- `synthesize_results` from `swarm_nodes.py`. -/
def synthesizeResults (s : SwarmState) : SwarmState :=
  let successful := s.completed_results.filter (fun r => r.success)
  let total_duration := (s.completed_results.map (fun r => r.duration_ms)).sum
  let total_tokens := (s.completed_results.map (fun r => r.tokens_used)).sum
  let header : List String :=
    ["## Swarm Execution Complete", "",
     "**Request:** " ++ s.user_request, "",
     "**Results:** " ++ toString successful.length ++ "/" ++
       toString s.completed_results.length ++ " tasks succeeded", "",
     "### Agent Results", ""]
  let perAgent := (s.completed_results.map resultSection).flatten
  let all_recommendations := (successful.map (fun r => r.recommendations)).flatten
  let recs : List String :=
    if !all_recommendations.isEmpty then
      ("### Recommendations" :: (all_recommendations.take 10).map (fun rec => "- " ++ rec)) ++ [""]
    else []
  let stats : List String :=
    ["### Statistics",
     "- Total Duration: " ++ toString total_duration ++ "ms",
     "- Total Tokens: " ++ toString total_tokens,
     "- Agents: " ++ toString s.completed_results.length]
  let summary := String.intercalate "\n" (header ++ perAgent ++ recs ++ stats)
  { s with synthesized_summary := some summary, phase := SwarmPhase.completed }

/-- `should_continue_spawning` from `swarm_nodes.py`; the filter below is the
source's `pending_tasks` list. -/
def remainingTasks (s : SwarmState) : List SubTask :=
  s.sub_tasks.filter (fun t =>
    decide (t.id ∉ completedIds s) && !decide (t.status = Status.failed))

def shouldContinueSpawning (s : SwarmState) : String :=
  let completed := completedIds s
  let pending_tasks := remainingTasks s
  if pending_tasks.isEmpty then "synthesize"
  else if pending_tasks.any (fun t =>
      decide (t.status = Status.ready) || decide (t.status = Status.running)) then "execute"
  else if pending_tasks.any (fun t => depsComplete completed t) then "spawn"
  else "synthesize"

/-- `_spawn_routing` from `graph/builder.py`. -/
def spawnRouting (s : SwarmState) : String :=
  if (s.sub_tasks.filter (hasStatus Status.running)).isEmpty then "synthesize" else "execute"

/-- Nodes of the swarm subgraph built in `build_swarm_graph`. -/
inductive SwarmNode
  | spawn
  | execute
  | synthesize
deriving DecidableEq

/-- Conditional-edge dictionary after `execute`
(`{"spawn": "spawn", "execute": "execute", "synthesize": "synthesize"}`). -/
def decisionTarget (d : String) : SwarmNode :=
  if d = "spawn" then SwarmNode.spawn
  else if d = "execute" then SwarmNode.execute
  else SwarmNode.synthesize

/-- Fuel-indexed run of the swarm subgraph loop from `build_swarm_graph`,
starting at a given node: `spawn` and `execute` alternate through the
conditional edges (`_spawn_routing`, `should_continue_spawning`) until the
`synthesize` node is reached; `none` means the fuel ran out before
`synthesize` was reached. -/
def runSwarm (outcome : String → Option String) :
    Nat → SwarmNode → SwarmState → Option SwarmState
  | _, SwarmNode.synthesize, s => some (synthesizeResults s)
  | 0, _, _ => none
  | fuel + 1, SwarmNode.spawn, s =>
    let s1 := spawnAgents s
    runSwarm outcome fuel
      (if spawnRouting s1 = "execute" then SwarmNode.execute else SwarmNode.synthesize) s1
  | fuel + 1, SwarmNode.execute, s =>
    let s1 := executeAgents outcome s
    runSwarm outcome fuel (decisionTarget (shouldContinueSpawning s1)) s1

/-! ## Conversation data model (`app/graph/state.py`) -/

/-- `InputType` enum from `state.py`. -/
inductive InputType
  | deterministic_command
  | codebase_command
  | template_command
  | ai_query
  | swarm_request
deriving DecidableEq

/-- `ExecutionPhase` enum from `state.py`. -/
inductive ExecutionPhase
  | input_received
  | input_parsed
  | context_loaded
  | command_routing
  | command_executed
  | isolation_resolved
  | session_prepared
  | ai_executing
  | ai_streaming
  | ai_completed
  | swarm_decomposing
  | swarm_executing
  | swarm_synthesizing
  | swarm_completed
  | response_sent
  | error
  | completed
deriving DecidableEq

/-- `ParsedCommand` model from `state.py`. -/
structure ParsedCommand where
  command : String
  args : List String := []
  raw : String
deriving DecidableEq

/-- LangChain message kinds used by the service
(`HumanMessage` / `AIMessage` / `SystemMessage`). -/
inductive Message
  | human (content : String)
  | ai (content : String)
  | system (content : String)
deriving DecidableEq

/-- `IsolationContext` model from `state.py`. -/
structure IsolationContext where
  cwd : String
  env_id : Option String := none
  branch_name : Option String := none
  is_new : Bool := false
deriving DecidableEq

/-- `FileOperations` model from `state.py`
(`searches: list[dict[str, str]]` is modelled as key/value pair lists). -/
structure FileOperations where
  read : List String := []
  written : List String := []
  edited : List String := []
  searches : List (List (String × String)) := []
deriving DecidableEq

/-- `AIExecutionResult` model from `state.py`
(`token_usage: dict[str, int]` is modelled as a key/value pair list). -/
structure AIExecutionResult where
  success : Bool
  session_id : Option String := none
  error : Option String := none
  files_written : List String := []
  file_operations : FileOperations := {}
  token_usage : List (String × Nat) := []
deriving DecidableEq

/-- Status literal of a `SwarmResult`. -/
inductive SwarmResultStatus
  | completed
  | failed
deriving DecidableEq

/-- `SwarmResult` model from `state.py`. -/
structure SwarmResult where
  swarm_id : String
  status : SwarmResultStatus
  summary : String
  agent_count : Nat
  completed_count : Nat
  failed_count : Nat
  duration_ms : Nat
  total_tokens : Nat := 0
  recommendations : List String := []
deriving DecidableEq

/-- `ConversationContext` model from `state.py`. -/
structure ConversationContext where
  conversation_id : String
  platform_type : String
  codebase_id : Option String := none
  codebase_name : Option String := none
  cwd : Option String := none
  ai_assistant_type : String := "claude"
  session_id : Option String := none
  assistant_session_id : Option String := none
deriving DecidableEq

/-- `ConversationState` model from `state.py` (`started_at` omitted:
wall-clock time, read by no modelled code). -/
structure ConversationState where
  conversation_id : String
  platform_type : String
  raw_message : String
  issue_context : Option String := none
  thread_context : Option String := none
  messages : List Message := []
  input_type : Option InputType := none
  parsed_command : Option ParsedCommand := none
  command_name : Option String := none
  context : Option ConversationContext := none
  isolation : Option IsolationContext := none
  prompt_to_send : Option String := none
  skip_ai : Bool := false
  direct_response : Option String := none
  ai_result : Option AIExecutionResult := none
  swarm_result : Option SwarmResult := none
  error : Option String := none
  was_aborted : Bool := false
  phase : ExecutionPhase := ExecutionPhase.input_received
  responses_sent : List String := []
deriving DecidableEq

/-! ## Input nodes (`app/nodes/input_nodes.py`) -/

/-- `DETERMINISTIC_COMMANDS` set from `input_nodes.py`. -/
def DETERMINISTIC_COMMANDS : List String :=
  ["help", "status", "getcwd", "setcwd", "clone", "repos", "repo", "repo-remove",
   "reset", "reset-context", "command-set", "load-commands", "commands",
   "template-add", "template-list", "templates", "template-delete", "worktree",
   "init", "verbose", "stop", "quickref", "agents", "chains", "prompts",
   "commands-all"]

/-- Exceptions that can escape the modelled Python code. -/
inductive PyErr
  | indexError
deriving DecidableEq

theorem dropWhile_length_le {α : Type} (p : α → Bool) :
    ∀ l : List α, (l.dropWhile p).length ≤ l.length := by
  intro l
  induction l with
  | nil => simp [List.dropWhile]
  | cons a l ih =>
    simp only [List.dropWhile]
    cases p a
    · simp
    · simp
      omega

theorem length_dropWhile_lt_cons {α : Type} (p : α → Bool) (c : α) (l : List α) :
    (l.dropWhile p).length < (c :: l).length := by
  have := dropWhile_length_le p l
  simp only [List.length_cons]
  omega

/-- Argument tokenizer of `parse_command`: models
`re.finditer` with pattern alternatives (one double-quoted run) |
(one single-quoted run) | (one run of non-whitespace), appending
`group(1) or group(2) or group(3)` per match.  A quote with no non-empty
quoted run before the next matching quote falls through to the
non-whitespace alternative, exactly as the regex engine does.  The `fuel`
argument only makes the recursion structural; every step consumes at least
one character, so `fuel = l.length` (as supplied by `scanArgs`) never runs
out. -/
def scanArgsAux : Nat → List Char → List String
  | 0, _ => []
  | _, [] => []
  | fuel + 1, c :: rest =>
    if pyIsSpace c then scanArgsAux fuel rest
    else if c == dquoteChar then
      match rest.findIdx? (fun x => x == dquoteChar) with
      | some (k + 1) =>
        String.mk (rest.take (k + 1)) :: scanArgsAux fuel (rest.drop (k + 2))
      | _ =>
        String.mk (c :: rest.takeWhile (fun x => !pyIsSpace x)) ::
          scanArgsAux fuel (rest.dropWhile (fun x => !pyIsSpace x))
    else if c == squoteChar then
      match rest.findIdx? (fun x => x == squoteChar) with
      | some (k + 1) =>
        String.mk (rest.take (k + 1)) :: scanArgsAux fuel (rest.drop (k + 2))
      | _ =>
        String.mk (c :: rest.takeWhile (fun x => !pyIsSpace x)) ::
          scanArgsAux fuel (rest.dropWhile (fun x => !pyIsSpace x))
    else
      String.mk (c :: rest.takeWhile (fun x => !pyIsSpace x)) ::
        scanArgsAux fuel (rest.dropWhile (fun x => !pyIsSpace x))

def scanArgs (l : List Char) : List String :=
  scanArgsAux l.length l

/-- `parse_command` from `input_nodes.py`.  `parts[0]` on an empty `parts`
list raises `IndexError`, modelled as `Except.error`. -/
def parseCommand (message : String) : Except PyErr (Option ParsedCommand) :=
  if !pyStartsWith message slashChar then Except.ok none
  else
    let parts := pySplitMax1 (String.mk (message.toList.drop 1))
    match parts with
    | [] => Except.error PyErr.indexError
    | cmd :: restParts =>
      let command := pyLower cmd
      let args : List String :=
        match restParts with
        | [] => []
        | arg_str :: _ => scanArgs arg_str.toList
      Except.ok (some { command := command, args := args, raw := message })

/-- Command classification inside `parse_input`. -/
def classifyCommand (cmd : String) : InputType :=
  if cmd ∈ DETERMINISTIC_COMMANDS then InputType.deterministic_command
  else if cmd = "command-invoke" then InputType.codebase_command
  else if cmd = "swarm" then InputType.swarm_request
  else InputType.template_command

/-- `parse_input` from `input_nodes.py`, returning the state with the node's
update dict applied.  The call to `parse_command` is unguarded in the source,
so a raised `IndexError` propagates. -/
def parseInput (s : ConversationState) : Except PyErr ConversationState :=
  let message := pyStrip s.raw_message
  if pyStartsWith message slashChar then
    match parseCommand message with
    | Except.error e => Except.error e
    | Except.ok none =>
      Except.ok { s with phase := ExecutionPhase.error,
                         error := some "Failed to parse command" }
    | Except.ok (some parsed) =>
      Except.ok { s with
        input_type := some (classifyCommand parsed.command),
        parsed_command := some parsed,
        command_name := some parsed.command,
        phase := ExecutionPhase.input_parsed }
  else
    Except.ok { s with
      input_type := some InputType.ai_query,
      parsed_command := none,
      command_name := none,
      phase := ExecutionPhase.input_parsed }

/-! ## Routing nodes (`app/nodes/routing_nodes.py`) -/

/-- `get_routing_decision` from `routing_nodes.py`. -/
def getRoutingDecision (s : ConversationState) : String :=
  if pyTruthy s.error then "error_handler"
  else
    match s.input_type with
    | some InputType.deterministic_command => "execute_command"
    | some InputType.codebase_command => "build_prompt"
    | some InputType.template_command => "build_prompt"
    | some InputType.swarm_request => "swarm_subgraph"
    | some InputType.ai_query => "build_prompt"
    | none => "error_handler"

/-- Positional substitution loop of `build_prompt`:
`for i, arg in enumerate(args, 1): template = template.replace(f"${i}", arg)`. -/
def substPositional (template : String) : List String → Nat → String
  | [], _ => template
  | arg :: rest, i => substPositional (template.replace ("$" ++ toString i) arg) rest (i + 1)

/-- Current-request part of `build_prompt` (everything before the
thread/issue context wrapping): template load placeholder, `$i` and
`$ARGUMENTS` substitution, and instruction-frame wrapping for
codebase/template commands; the raw message otherwise. -/
def basePrompt (s : ConversationState) : String :=
  if s.input_type = some InputType.codebase_command ∨
     s.input_type = some InputType.template_command then
    match s.parsed_command with
    | some pc =>
      let command_name := if pyTruthy s.command_name then s.command_name.getD "" else "unknown"
      let template0 := "Execute the \x27" ++ command_name ++ "\x27 command"
      let template1 := substPositional template0 pc.args 1
      let template2 := template1.replace "$ARGUMENTS" (String.intercalate " " pc.args)
      "The user invoked the `/" ++ command_name ++
        "` command. Execute the following instructions immediately without asking for confirmation:\n\n---\n\n" ++
        template2 ++
        "\n\n---\n\nRemember: The user already decided to run this command. Take action now."
    | none => s.raw_message
  else s.raw_message

/-- `build_prompt` from `routing_nodes.py`: thread context is prepended as a
labelled section, issue context appended. -/
def buildPrompt (s : ConversationState) : ConversationState :=
  let prompt0 := basePrompt s
  let prompt1 :=
    if pyTruthy s.thread_context then
      "## Thread Context (previous messages)\n\n" ++ s.thread_context.getD "" ++
        "\n\n---\n\n## Current Request\n\n" ++ prompt0
    else prompt0
  let prompt2 :=
    if pyTruthy s.issue_context then
      prompt1 ++ "\n\n---\n\n" ++ s.issue_context.getD ""
    else prompt1
  { s with prompt_to_send := some prompt2, phase := ExecutionPhase.session_prepared }

/-! ## Execution nodes (`app/nodes/execution_nodes.py`) -/

/-- `execute_ai` from `execution_nodes.py`, with the streamed LLM call
abstracted as `llm : Except String String` (`ok` = accumulated response text,
`error` = text of the raised exception).  Redis events are external effects
with no bearing on the returned state update. -/
def executeAI (llm : Except String String) (s : ConversationState) : ConversationState :=
  if !pyTruthy s.prompt_to_send then
    { s with error := some "No prompt to execute", phase := ExecutionPhase.error }
  else
    match llm with
    | Except.ok full_response =>
      let promptText := s.prompt_to_send.getD ""
      let input_tokens := promptText.length / 4
      let output_tokens := full_response.length / 4
      { s with
        messages := s.messages ++ [Message.human promptText, Message.ai full_response],
        ai_result := some
          { success := true,
            token_usage := [("input", input_tokens), ("output", output_tokens),
                            ("total", input_tokens + output_tokens)] },
        phase := ExecutionPhase.ai_completed }
    | Except.error e =>
      { s with
        error := some ("AI execution failed: " ++ e),
        ai_result := some { success := false, error := some e },
        phase := ExecutionPhase.error }

/-- Reverse scan for the last `AIMessage` in the history
(`for msg in reversed(state.messages): if isinstance(msg, AIMessage): ...`). -/
def lastAIMessage (msgs : List Message) : Option String :=
  msgs.reverse.findSome? (fun m =>
    match m with
    | Message.ai content => some content
    | _ => none)

/-- Response selection of `send_response`: the `if/elif` chain over
`direct_response`, `ai_result and messages`, `swarm_result`, `error`. -/
def sendResponses (s : ConversationState) : List String :=
  if pyTruthy s.direct_response then [s.direct_response.getD ""]
  else if s.ai_result.isSome ∧ !s.messages.isEmpty then
    match lastAIMessage s.messages with
    | some content => [content]
    | none => []
  else
    match s.swarm_result with
    | some r => [r.summary]
    | none =>
      if pyTruthy s.error then ["Error: " ++ s.error.getD ""] else []

/-- `send_response` from `execution_nodes.py`: publishes the selected
responses (an external effect) and returns the state with the update dict
`{"responses_sent": responses, "phase": COMPLETED}` applied. -/
def sendResponse (s : ConversationState) : ConversationState :=
  { s with responses_sent := sendResponses s, phase := ExecutionPhase.completed }

/-- `handle_error` from `execution_nodes.py`. -/
def handleError (s : ConversationState) : ConversationState :=
  { s with
    direct_response := some ("An error occurred: " ++
      (if pyTruthy s.error then s.error.getD "" else "Unknown error")),
    phase := ExecutionPhase.error }

/-! ## Conversation graph topology (`app/graph/builder.py`) -/

/-- Nodes of the conversation graph built in `build_conversation_graph`. -/
inductive ConvNode
  | parse_input
  | load_context
  | route_input
  | execute_command
  | build_prompt
  | execute_ai
  | swarm_subgraph
  | send_response
  | error_handler
  | finish
deriving DecidableEq

/-- Conditional-edge dictionary after `route_input`. -/
def routeTargetNode (d : String) : ConvNode :=
  if d = "execute_command" then ConvNode.execute_command
  else if d = "build_prompt" then ConvNode.build_prompt
  else if d = "swarm_subgraph" then ConvNode.swarm_subgraph
  else ConvNode.error_handler

/-- Successor function encoding the edges added in
`build_conversation_graph` (`finish` stands for `END`). -/
def convNext (n : ConvNode) (s : ConversationState) : ConvNode :=
  match n with
  | ConvNode.parse_input => ConvNode.load_context
  | ConvNode.load_context => ConvNode.route_input
  | ConvNode.route_input => routeTargetNode (getRoutingDecision s)
  | ConvNode.execute_command => ConvNode.send_response
  | ConvNode.build_prompt => ConvNode.execute_ai
  | ConvNode.execute_ai => ConvNode.send_response
  | ConvNode.swarm_subgraph => ConvNode.send_response
  | ConvNode.error_handler => ConvNode.send_response
  | ConvNode.send_response => ConvNode.finish
  | ConvNode.finish => ConvNode.finish

/-! ## Claim C5: totality of the routing function -/

/-- C5: the routing function is total: for every value of the `InputType` enum,
and additionally for the case where `state.error` is set, `get_routing_decision`
returns one of the known destinations, with the mapping error→error_handler,
DETERMINISTIC_COMMAND→execute_command, CODEBASE/TEMPLATE/AI_QUERY→build_prompt,
SWARM_REQUEST→swarm_subgraph, unrecognized (no classification)→error_handler;
no case is left unmapped. -/
theorem routing_total_and_mapped :
    (∀ s : ConversationState,
      getRoutingDecision s ∈
        ["error_handler", "execute_command", "build_prompt", "swarm_subgraph"]) ∧
    (∀ s : ConversationState, pyTruthy s.error = true →
      getRoutingDecision s = "error_handler") ∧
    (∀ s : ConversationState, pyTruthy s.error = false →
      s.input_type = some InputType.deterministic_command →
      getRoutingDecision s = "execute_command") ∧
    (∀ (s : ConversationState) (it : InputType), pyTruthy s.error = false →
      s.input_type = some it →
      (it = InputType.codebase_command ∨ it = InputType.template_command ∨
        it = InputType.ai_query) →
      getRoutingDecision s = "build_prompt") ∧
    (∀ s : ConversationState, pyTruthy s.error = false →
      s.input_type = some InputType.swarm_request →
      getRoutingDecision s = "swarm_subgraph") ∧
    (∀ s : ConversationState, pyTruthy s.error = false → s.input_type = none →
      getRoutingDecision s = "error_handler") := by
  refine ⟨?_, ?_, ?_, ?_, ?_, ?_⟩
  · intro s
    unfold getRoutingDecision
    by_cases he : pyTruthy s.error
    · simp [he]
    · simp only [he, if_false, Bool.false_eq_true]
      cases hit : s.input_type with
      | none => simp
      | some it => cases it <;> simp
  · intro s he
    simp [getRoutingDecision, he]
  · intro s he hit
    simp [getRoutingDecision, he, hit]
  · intro s it he hit hcase
    rcases hcase with h | h | h <;> subst h <;> simp [getRoutingDecision, he, hit]
  · intro s he hit
    simp [getRoutingDecision, he, hit]
  · intro s he hit
    simp [getRoutingDecision, he, hit]

def c5Witness : ConversationState :=
  { conversation_id := "conv", platform_type := "telegram", raw_message := "/help",
    input_type := some InputType.deterministic_command }

theorem routing_total_and_mapped_witness :
    getRoutingDecision c5Witness = "execute_command" :=
  routing_total_and_mapped.2.2.1 c5Witness rfl rfl

/-! ## Claim C6: bare "/" input -/

def c6State : ConversationState :=
  { conversation_id := "conv", platform_type := "telegram", raw_message := "/" }

/-- C6: the claim says that for a message starting with "/" from which no
command name can be extracted (the bare "/"), `parse_input` fails gracefully
by setting the error string and moving the phase to ERROR.  The code instead
raises: `parse_command` evaluates `parts[0]` on an empty list, an uncaught
`IndexError`, and `parse_input` calls it unguarded (its graceful
`if not parsed` branch is unreachable), so both raise on the input "/". -/
theorem parse_input_raises_on_bare_slash :
    parseCommand "/" = Except.error PyErr.indexError ∧
    parseInput c6State = Except.error PyErr.indexError :=
  ⟨rfl, rfl⟩

/-! ## Claim C7: command parsing examples and AI-query classification -/

/-- C7 (amended): `parse_command("/help")` yields command "help" with no args;
`parse_command` on `/command-invoke plan "Add dark mode feature"` yields
command "command-invoke" and args `["plan", "Add dark mode feature"]`; and
every message whose whitespace-stripped form does not start with "/" is
classified as AI_QUERY with no parsed command. -/
theorem parse_command_examples_and_ai_query :
    parseCommand "/help" =
      Except.ok (some { command := "help", args := [], raw := "/help" }) ∧
    parseCommand "/command-invoke plan \"Add dark mode feature\"" =
      Except.ok (some { command := "command-invoke",
                        args := ["plan", "Add dark mode feature"],
                        raw := "/command-invoke plan \"Add dark mode feature\"" }) ∧
    (∀ s : ConversationState, pyStartsWith (pyStrip s.raw_message) slashChar = false →
      parseInput s = Except.ok { s with
        input_type := some InputType.ai_query,
        parsed_command := none,
        command_name := none,
        phase := ExecutionPhase.input_parsed }) := by
  refine ⟨rfl, rfl, ?_⟩
  intro s h
  simp [parseInput, h]

def c7WitnessState : ConversationState :=
  { conversation_id := "conv", platform_type := "telegram",
    raw_message := "What is the capital of France?" }

theorem parse_command_examples_and_ai_query_witness :
    parseInput c7WitnessState = Except.ok { c7WitnessState with
      input_type := some InputType.ai_query,
      parsed_command := none,
      command_name := none,
      phase := ExecutionPhase.input_parsed } :=
  parse_command_examples_and_ai_query.2.2 c7WitnessState rfl

def c7CounterState : ConversationState :=
  { conversation_id := "conv", platform_type := "telegram", raw_message := " /help" }

/-- C7 counterexample: `parse_input` strips the message before checking the
command prefix, so the message " /help" — which does not start with "/" — is
still parsed as a command and classified DETERMINISTIC_COMMAND, not
AI_QUERY. -/
theorem parse_input_strips_before_classifying :
    pyStartsWith c7CounterState.raw_message slashChar = false ∧
    parseInput c7CounterState = Except.ok { c7CounterState with
      input_type := some InputType.deterministic_command,
      parsed_command := some { command := "help", args := [], raw := "/help" },
      command_name := some "help",
      phase := ExecutionPhase.input_parsed } :=
  ⟨rfl, rfl⟩

/-! ## Claim C8: prompt assembly order -/

/-- C8: `build_prompt` assembles the prompt in a fixed order — thread-context
section first (when present), then the current request with template
substitution already applied (`basePrompt`), then the issue-context section —
and for an AI_QUERY with neither context the produced prompt equals the raw
message unchanged. -/
theorem build_prompt_order :
    (∀ s : ConversationState, pyTruthy s.thread_context = true →
      pyTruthy s.issue_context = true →
      (buildPrompt s).prompt_to_send = some
        ("## Thread Context (previous messages)\n\n" ++ s.thread_context.getD "" ++
          "\n\n---\n\n## Current Request\n\n" ++ basePrompt s ++
          "\n\n---\n\n" ++ s.issue_context.getD "")) ∧
    (∀ s : ConversationState, s.input_type = some InputType.ai_query →
      s.thread_context = none → s.issue_context = none →
      (buildPrompt s).prompt_to_send = some s.raw_message) := by
  constructor
  · intro s h1 h2
    simp [buildPrompt, h1, h2]
  · intro s hit h1 h2
    simp [buildPrompt, basePrompt, hit, h1, h2, pyTruthy]

def c8WitnessState : ConversationState :=
  { conversation_id := "conv", platform_type := "github", raw_message := "Fix the bug",
    input_type := some InputType.ai_query,
    thread_context := some "Previous discussion...",
    issue_context := some "Issue 42: Login broken" }

theorem build_prompt_order_witness :
    (buildPrompt c8WitnessState).prompt_to_send = some
      ("## Thread Context (previous messages)\n\n" ++
        c8WitnessState.thread_context.getD "" ++
        "\n\n---\n\n## Current Request\n\n" ++ basePrompt c8WitnessState ++
        "\n\n---\n\n" ++ c8WitnessState.issue_context.getD "") :=
  build_prompt_order.1 c8WitnessState rfl rfl

/-! ## Claim C10: decomposition always yields a runnable task -/

/-- C10: for every user request, `decompose_task` produces a non-empty list of
sub-tasks (three on the build/implement branch, three on the review/audit
branch, one researcher task otherwise), at least one produced sub-task has an
empty dependency list and status "ready", and the returned phase is SPAWNING
(so a freshly decomposed swarm always has an immediately runnable task). -/
theorem decompose_yields_runnable_task :
    ∀ (gen : Nat → String) (s : SwarmState),
      (decomposeTask gen s).sub_tasks ≠ [] ∧
      (∃ t ∈ (decomposeTask gen s).sub_tasks,
        t.dependencies = [] ∧ t.status = Status.ready) ∧
      ((decomposeTask gen s).sub_tasks.length =
        if buildKeyword s.user_request then 3
        else if reviewKeyword s.user_request then 3 else 1) ∧
      (buildKeyword s.user_request = false → reviewKeyword s.user_request = false →
        (decomposeTask gen s).sub_tasks.map (fun t => t.role) = [AgentRole.researcher]) ∧
      (decomposeTask gen s).phase = SwarmPhase.spawning := by
  intro gen s
  by_cases hb : buildKeyword s.user_request
  · refine ⟨?_, ?_, ?_, ?_, rfl⟩
    · simp [decomposeTask, hb]
    · simp [decomposeTask, hb]
    · simp [decomposeTask, hb]
    · intro h
      rw [hb] at h
      exact absurd h (by simp)
  · by_cases hr : reviewKeyword s.user_request
    · refine ⟨?_, ?_, ?_, ?_, rfl⟩
      · simp [decomposeTask, hb, hr]
      · simp [decomposeTask, hb, hr]
      · simp [decomposeTask, hb, hr]
      · intro _ h
        rw [hr] at h
        exact absurd h (by simp)
    · refine ⟨?_, ?_, ?_, ?_, rfl⟩
      · simp [decomposeTask, hb, hr]
      · simp [decomposeTask, hb, hr]
      · simp [decomposeTask, hb, hr]
      · intro _ _
        simp [decomposeTask, hb, hr]

def c10WitnessSwarm : SwarmState :=
  { swarm_id := "swarm-1", conversation_id := "conv", user_request := "What is X?",
    cwd := "/home/user" }

theorem decompose_yields_runnable_task_witness :
    (decomposeTask (fun _ => "aa") c10WitnessSwarm).sub_tasks.map (fun t => t.role) =
      [AgentRole.researcher] :=
  (decompose_yields_runnable_task (fun _ => "aa") c10WitnessSwarm).2.2.2.1 rfl rfl

/-! ## Shared lemmas about `send_response` -/

theorem sendResponses_skip_ai_branch (s : ConversationState)
    (h : s.ai_result = none ∨ s.messages = []) :
    ¬(s.ai_result.isSome = true ∧ (!s.messages.isEmpty) = true) := by
  intro hc
  rcases h with h | h
  · rw [h] at hc
    simp at hc
  · rw [h] at hc
    simp at hc

theorem sendResponses_error_branch (s : ConversationState)
    (h1 : pyTruthy s.direct_response = false)
    (h2 : s.ai_result = none ∨ s.messages = [])
    (h3 : s.swarm_result = none) (h4 : pyTruthy s.error = true) :
    sendResponses s = ["Error: " ++ s.error.getD ""] := by
  rw [sendResponses, if_neg (by simp [h1]), if_neg (sendResponses_skip_ai_branch s h2), h3]
  simp [h4]

/-! ## Claim C4: response selection priority -/

def c4CounterState : ConversationState :=
  { conversation_id := "conv", platform_type := "telegram", raw_message := "hi",
    messages := [Message.human "hi"],
    ai_result := some { success := false, error := some "boom" },
    error := some "AI execution failed: boom",
    phase := ExecutionPhase.error }

/-- C4 counterexample: a terminal (ERROR-phase) state in which `send_response`
selects none of the four sources — `ai_result` is set and the history is
nonempty, so the AI branch is taken, but the history holds no assistant
message, so zero responses are emitted even though the error text is
available.  This refutes "selects exactly one". -/
theorem send_response_can_emit_nothing :
    c4CounterState.phase = ExecutionPhase.error ∧
    pyTruthy c4CounterState.error = true ∧
    sendResponses c4CounterState = [] := by
  refine ⟨rfl, ?_, rfl⟩
  decide

/-- C4 (amended): `send_response` selects at most one of {direct_response,
last assistant message, swarm summary, error text}, trying them in exactly
that priority order, and records the emitted strings in `responses_sent`;
when the AI branch is taken (ai_result set, nonempty history) it emits the
last assistant message or nothing, and when no source applies nothing is
emitted. -/
theorem send_response_priority :
    (∀ s : ConversationState, (sendResponses s).length ≤ 1) ∧
    (∀ s : ConversationState, (sendResponse s).responses_sent = sendResponses s) ∧
    (∀ s : ConversationState, pyTruthy s.direct_response = true →
      sendResponses s = [s.direct_response.getD ""]) ∧
    (∀ s : ConversationState, pyTruthy s.direct_response = false →
      s.ai_result.isSome = true → s.messages ≠ [] →
      sendResponses s = (lastAIMessage s.messages).toList) ∧
    (∀ (s : ConversationState) (r : SwarmResult), pyTruthy s.direct_response = false →
      (s.ai_result = none ∨ s.messages = []) → s.swarm_result = some r →
      sendResponses s = [r.summary]) ∧
    (∀ s : ConversationState, pyTruthy s.direct_response = false →
      (s.ai_result = none ∨ s.messages = []) → s.swarm_result = none →
      pyTruthy s.error = true → sendResponses s = ["Error: " ++ s.error.getD ""]) ∧
    (∀ s : ConversationState, pyTruthy s.direct_response = false →
      (s.ai_result = none ∨ s.messages = []) → s.swarm_result = none →
      pyTruthy s.error = false → sendResponses s = []) := by
  refine ⟨?_, ?_, ?_, ?_, ?_, ?_, ?_⟩
  · intro s
    unfold sendResponses
    split
    · simp
    · split
      · cases lastAIMessage s.messages <;> simp
      · split
        · simp
        · split <;> simp
  · intro s
    rfl
  · intro s h
    simp [sendResponses, h]
  · intro s h1 h2 h3
    have hne : s.messages.isEmpty = false := by
      cases hm : s.messages with
      | nil => exact absurd hm h3
      | cons a l => rfl
    rw [sendResponses, if_neg (by simp [h1]), if_pos (by simp [h2, hne])]
    cases lastAIMessage s.messages <;> simp
  · intro s r h1 h2 h3
    rw [sendResponses, if_neg (by simp [h1]), if_neg (sendResponses_skip_ai_branch s h2), h3]
  · intro s h1 h2 h3 h4
    exact sendResponses_error_branch s h1 h2 h3 h4
  · intro s h1 h2 h3 h4
    rw [sendResponses, if_neg (by simp [h1]), if_neg (sendResponses_skip_ai_branch s h2), h3]
    simp [h4]

def c4WitnessState : ConversationState :=
  { conversation_id := "conv", platform_type := "telegram", raw_message := "/help",
    direct_response := some "Lugh help text", phase := ExecutionPhase.command_executed }

theorem send_response_priority_witness :
    sendResponses c4WitnessState = [c4WitnessState.direct_response.getD ""] :=
  send_response_priority.2.2.1 c4WitnessState (by decide)

/-! ## Claim C9: idempotent response emission -/

def c9StateA : ConversationState :=
  { conversation_id := "conv", platform_type := "telegram", raw_message := "hi",
    messages := [Message.ai "x"],
    ai_result := some { success := true },
    error := some "e", phase := ExecutionPhase.completed }

def c9StateB : ConversationState :=
  { conversation_id := "conv", platform_type := "telegram", raw_message := "hi",
    messages := [Message.ai "x"],
    ai_result := none,
    error := some "e", phase := ExecutionPhase.completed }

/-- C9 counterexample: the emitted responses are not a projection of the four
fields `(direct_response, messages, swarm_result, error)` named by the claim —
`send_response` also reads `ai_result`.  The two states below agree on all
four named fields but produce different responses. -/
theorem send_response_reads_ai_result :
    c9StateA.direct_response = c9StateB.direct_response ∧
    c9StateA.messages = c9StateB.messages ∧
    c9StateA.swarm_result = c9StateB.swarm_result ∧
    c9StateA.error = c9StateB.error ∧
    sendResponses c9StateA ≠ sendResponses c9StateB := by
  refine ⟨rfl, rfl, rfl, rfl, ?_⟩
  decide

/-- C9 (amended): response emission is idempotent — applying `send_response`
and running the selection again on the updated state yields the same response
content, because the selection is a pure projection of the five fields
`(direct_response, ai_result, messages, swarm_result, error)`, none of which
`send_response` modifies; it is not an incrementing counter or accumulator. -/
theorem send_response_idempotent_projection :
    (∀ s : ConversationState, sendResponses (sendResponse s) = sendResponses s) ∧
    (∀ s1 s2 : ConversationState,
      s1.direct_response = s2.direct_response → s1.ai_result = s2.ai_result →
      s1.messages = s2.messages → s1.swarm_result = s2.swarm_result →
      s1.error = s2.error → sendResponses s1 = sendResponses s2) := by
  have hproj : ∀ s1 s2 : ConversationState,
      s1.direct_response = s2.direct_response → s1.ai_result = s2.ai_result →
      s1.messages = s2.messages → s1.swarm_result = s2.swarm_result →
      s1.error = s2.error → sendResponses s1 = sendResponses s2 := by
    intro s1 s2 h1 h2 h3 h4 h5
    unfold sendResponses
    rw [h1, h2, h3, h4, h5]
  exact ⟨fun s => hproj _ _ rfl rfl rfl rfl rfl, hproj⟩

def c9WitnessA : ConversationState :=
  { conversation_id := "conv", platform_type := "telegram", raw_message := "hi",
    direct_response := some "done", responses_sent := [], phase := ExecutionPhase.command_executed }

def c9WitnessB : ConversationState :=
  { conversation_id := "conv", platform_type := "telegram", raw_message := "hi",
    direct_response := some "done", responses_sent := ["done"], phase := ExecutionPhase.completed }

theorem send_response_idempotent_projection_witness :
    sendResponses c9WitnessA = sendResponses c9WitnessB :=
  send_response_idempotent_projection.2 c9WitnessA c9WitnessB rfl rfl rfl rfl rfl

/-! ## Claim C3: AI execution failure path -/

theorem ai_failed_error_ne_empty (e : String) : ("AI execution failed: " ++ e) ≠ "" := by
  intro hc
  have h := congrArg String.length hc
  rw [String.length_append] at h
  have h1 : ("AI execution failed: ").length = 21 := rfl
  have h2 : ("" : String).length = 0 := rfl
  omega

def c3State : ConversationState :=
  { conversation_id := "conv", platform_type := "telegram",
    raw_message := "What is the capital of France?",
    input_type := some InputType.ai_query,
    prompt_to_send := some "What is the capital of France?",
    phase := ExecutionPhase.session_prepared }

/-- C3 counterexample: after an LLM failure inside `execute_ai`, the graph
does NOT route to the error-handler node — the only outgoing edge of
`execute_ai` goes to `send_response` — and the user-facing text emitted there
is "Error: AI execution failed: boom", not the error-handler's
"An error occurred: boom". -/
theorem execute_ai_failure_skips_error_handler :
    convNext ConvNode.execute_ai (executeAI (Except.error "boom") c3State) =
      ConvNode.send_response ∧
    ConvNode.send_response ≠ ConvNode.error_handler ∧
    sendResponses (executeAI (Except.error "boom") c3State) =
      ["Error: AI execution failed: boom"] ∧
    sendResponses (executeAI (Except.error "boom") c3State) ≠
      ["An error occurred: boom"] := by
  refine ⟨rfl, by decide, ?_, ?_⟩ <;> decide

/-- C3 (amended): when the LLM call inside `execute_ai` fails with text `e`,
the node sets `error` to "AI execution failed: e", records an
`AIExecutionResult` with success=false, drives the phase to ERROR, and is not
retried; the graph then proceeds directly to `send_response`, which — absent
a direct response, an assistant message in the history, and a swarm result —
emits "Error: AI execution failed: e". -/
theorem execute_ai_failure_behavior :
    ∀ (e : String) (s : ConversationState), pyTruthy s.prompt_to_send = true →
      (executeAI (Except.error e) s).error = some ("AI execution failed: " ++ e) ∧
      (executeAI (Except.error e) s).ai_result =
        some { success := false, error := some e } ∧
      (executeAI (Except.error e) s).phase = ExecutionPhase.error ∧
      convNext ConvNode.execute_ai (executeAI (Except.error e) s) =
        ConvNode.send_response ∧
      (pyTruthy s.direct_response = false → s.messages = [] → s.swarm_result = none →
        sendResponses (executeAI (Except.error e) s) =
          ["Error: " ++ ("AI execution failed: " ++ e)]) := by
  intro e s hp
  have hfail : executeAI (Except.error e) s =
      { s with error := some ("AI execution failed: " ++ e),
               ai_result := some { success := false, error := some e },
               phase := ExecutionPhase.error } := by
    unfold executeAI
    rw [if_neg (by simp [hp])]
  refine ⟨by rw [hfail], by rw [hfail], by rw [hfail], rfl, ?_⟩
  intro h1 h2 h3
  rw [hfail]
  rw [sendResponses_error_branch _ (by simpa using h1) (Or.inr (by simpa using h2))
    (by simpa using h3) (by simp only [pyTruthy]; exact decide_eq_true (ai_failed_error_ne_empty e))]
  simp

def c3WitnessState : ConversationState :=
  { conversation_id := "conv", platform_type := "telegram", raw_message := "hello",
    input_type := some InputType.ai_query, prompt_to_send := some "hello",
    phase := ExecutionPhase.session_prepared }

theorem execute_ai_failure_behavior_witness :
    (executeAI (Except.error "gateway timeout") c3WitnessState).phase =
      ExecutionPhase.error ∧
    sendResponses (executeAI (Except.error "gateway timeout") c3WitnessState) =
      ["Error: " ++ ("AI execution failed: " ++ "gateway timeout")] :=
  ⟨(execute_ai_failure_behavior "gateway timeout" c3WitnessState (by decide)).2.2.1,
   (execute_ai_failure_behavior "gateway timeout" c3WitnessState (by decide)).2.2.2.2
     rfl rfl rfl⟩

/-! ## Shared lemmas about `spawn_agents` -/

theorem promoteTask_id (c : List String) (t : SubTask) : (promoteTask c t).id = t.id := by
  unfold promoteTask
  split <;> rfl

theorem promoteThenRun_id (c : List String) (t : SubTask) :
    (promoteThenRun c t).id = t.id := by
  unfold promoteThenRun
  dsimp only
  split <;> rw [promoteTask_id]

/-- Status table of one `spawn_agents` pass on a single task. -/
theorem promoteThenRun_status (c : List String) (t : SubTask) :
    (promoteThenRun c t).status =
      if t.status = Status.pending ∧ depsComplete c t = true then Status.running
      else if t.status = Status.ready then Status.running
      else t.status := by
  unfold promoteThenRun promoteTask
  by_cases h1 : t.status = Status.pending ∧ depsComplete c t = true
  · simp [h1]
  · by_cases h2 : t.status = Status.ready
    · simp [h1, h2]
    · simp [h1, h2]

/-- `promoteThenRun` leaves a task unchanged when it neither promotes nor
starts it. -/
theorem promoteThenRun_eq_self (c : List String) (t : SubTask)
    (h1 : ¬(t.status = Status.pending ∧ depsComplete c t = true))
    (h2 : t.status ≠ Status.ready) : promoteThenRun c t = t := by
  unfold promoteThenRun promoteTask
  simp [h1, h2]

/-- Promoted ready tasks of a `spawn_agents` pass (the source's
`ready_tasks`). -/
def readyAfterPromote (s : SwarmState) : List SubTask :=
  (s.sub_tasks.map (promoteTask (completedIds s))).filter (hasStatus Status.ready)

theorem spawnAgents_empty (s : SwarmState) (h : (readyAfterPromote s).isEmpty = true) :
    (spawnAgents s).sub_tasks = s.sub_tasks ∧
    (spawnAgents s).completed_results = s.completed_results := by
  simp only [spawnAgents, readyAfterPromote] at h ⊢
  rw [if_pos h]
  split <;> exact ⟨rfl, rfl⟩

theorem spawnAgents_nonempty (s : SwarmState) (h : (readyAfterPromote s).isEmpty = false) :
    spawnAgents s = { s with
      sub_tasks := s.sub_tasks.map (promoteThenRun (completedIds s)),
      running_agents := s.running_agents ++ (readyAfterPromote s).map (fun t => t.id),
      phase := SwarmPhase.running } := by
  simp only [spawnAgents, readyAfterPromote] at h ⊢
  rw [if_neg (by simp [h])]

theorem find?_map_id (f : SubTask → SubTask) (hf : ∀ t, (f t).id = t.id)
    (l : List SubTask) (tid : String) :
    (l.map f).find? (fun t => decide (t.id = tid)) =
      (l.find? (fun t => decide (t.id = tid))).map f := by
  induction l with
  | nil => rfl
  | cons a l ih =>
    simp only [List.map_cons]
    by_cases h : a.id = tid
    · rw [List.find?_cons_of_pos _ (by simp [hf a, h]),
          List.find?_cons_of_pos _ (by simp [h])]
      rfl
    · rw [List.find?_cons_of_neg _ (by simp [hf a, h]),
          List.find?_cons_of_neg _ (by simp [h]), ih]

theorem find?_id_of_mem_nodup (l : List SubTask) (t : SubTask)
    (hnd : (l.map (fun u => u.id)).Nodup) (hm : t ∈ l) :
    l.find? (fun u => decide (u.id = t.id)) = some t := by
  induction l with
  | nil => cases hm
  | cons a l ih =>
    simp only [List.map_cons, List.nodup_cons] at hnd
    rcases List.mem_cons.mp hm with rfl | hm2
    · exact List.find?_cons_of_pos _ (by simp)
    · by_cases h : a.id = t.id
      · exfalso
        apply hnd.1
        rw [h]
        exact List.mem_map.mpr ⟨t, hm2, rfl⟩
      · rw [List.find?_cons_of_neg _ (by simp [h])]
        exact ih hnd.2 hm2

/-- Status of the (unique, given distinct ids) sub-task with a given id. -/
def statusOfId (s : SwarmState) (tid : String) : Option Status :=
  (s.sub_tasks.find? (fun t => decide (t.id = tid))).map (fun t => t.status)

/-! ## Claim C2: dependency gating of sub-task promotion -/

def c2Task (tid : String) (deps : List String) (st : Status) : SubTask :=
  { id := tid, role := AgentRole.researcher, title := "t", description := "d",
    prompt := "p", dependencies := deps, priority := Priority.high,
    requires_tools := false, status := st }

def c2FailedResult : AgentResult :=
  { sub_task_id := "A", role := AgentRole.researcher, summary := "Failed: boom",
    details := "", success := false, duration_ms := 0, tokens_used := 0 }

def c2State : SwarmState :=
  { swarm_id := "swarm-1", conversation_id := "conv", user_request := "req",
    cwd := "/", sub_tasks := [c2Task "A" [] Status.failed, c2Task "T" ["A"] Status.pending],
    completed_results := [c2FailedResult], phase := SwarmPhase.spawning }

/-- C2 counterexample: `spawn_agents` promotes a pending task as soon as its
dependency has ANY result in `completed_results` — the `success` flag is never
consulted.  Here task A has failed (its only result has success=false), yet
its dependent T is promoted and started by `spawn_agents`, refuting "if A's
result has success=false, T never transitions to ready". -/
theorem failed_dependency_still_promotes :
    c2FailedResult.success = false ∧
    statusOfId c2State "T" = some Status.pending ∧
    statusOfId (spawnAgents c2State) "T" = some Status.running := by
  refine ⟨rfl, rfl, ?_⟩
  decide

/-- C2 (amended): under `spawn_agents`, a pending sub-task T with dependency
list [A] stays pending exactly until `completed_results` contains a result
for A with ANY success value; mere membership promotes it, so if A's result
has success=false, T still transitions to ready and is started. -/
theorem spawn_promotion_gated_by_result_membership :
    ∀ (s : SwarmState) (t : SubTask),
      (s.sub_tasks.map (fun u => u.id)).Nodup →
      t ∈ s.sub_tasks → t.status = Status.pending →
      ((depsComplete (completedIds s) t = false →
          statusOfId (spawnAgents s) t.id = some Status.pending) ∧
       (depsComplete (completedIds s) t = true →
          statusOfId (spawnAgents s) t.id = some Status.running)) := by
  intro s t hnd hm hp
  have hfind := find?_id_of_mem_nodup s.sub_tasks t hnd hm
  constructor
  · intro hd
    cases he : (readyAfterPromote s).isEmpty with
    | true =>
      have hsub := (spawnAgents_empty s he).1
      unfold statusOfId
      rw [hsub, hfind]
      simp [hp]
    | false =>
      have hsub := spawnAgents_nonempty s he
      unfold statusOfId
      rw [hsub]
      dsimp only
      rw [find?_map_id (promoteThenRun (completedIds s)) (promoteThenRun_id _) _ _, hfind]
      simp [promoteThenRun_status, hp, hd]
  · intro hd
    have hmem : promoteTask (completedIds s) t ∈
        s.sub_tasks.map (promoteTask (completedIds s)) :=
      List.mem_map.mpr ⟨t, hm, rfl⟩
    have hready : hasStatus Status.ready (promoteTask (completedIds s) t) = true := by
      unfold promoteTask hasStatus
      rw [if_pos ⟨hp, hd⟩]
      simp
    have hne : (readyAfterPromote s).isEmpty = false := by
      have hin : promoteTask (completedIds s) t ∈ readyAfterPromote s :=
        List.mem_filter.mpr ⟨hmem, hready⟩
      cases hcase : (readyAfterPromote s).isEmpty
      · rfl
      · rw [List.isEmpty_iff] at hcase
        rw [hcase] at hin
        cases hin
    have hsub := spawnAgents_nonempty s hne
    unfold statusOfId
    rw [hsub]
    dsimp only
    rw [find?_map_id (promoteThenRun (completedIds s)) (promoteThenRun_id _) _ _, hfind]
    simp [promoteThenRun_status, hp, hd]

def c2WitnessState : SwarmState :=
  { swarm_id := "swarm-1", conversation_id := "conv", user_request := "req",
    cwd := "/", sub_tasks := [c2Task "A" [] Status.pending, c2Task "T" ["A"] Status.pending],
    completed_results := [], phase := SwarmPhase.spawning }

theorem spawn_promotion_gated_by_result_membership_witness :
    statusOfId (spawnAgents c2WitnessState) (c2Task "T" ["A"] Status.pending).id =
      some Status.pending :=
  (spawn_promotion_gated_by_result_membership c2WitnessState
    (c2Task "T" ["A"] Status.pending) (by decide) (by decide) rfl).1 (by decide)

/-! ## Shared lemmas about `execute_agents` and counting -/

theorem isEmpty_false_of_mem {α : Type} {l : List α} {x : α} (h : x ∈ l) :
    l.isEmpty = false := by
  cases l
  · cases h
  · rfl

theorem mkAgentResult_id (o : String → Option String) (t : SubTask) :
    (mkAgentResult o t).sub_task_id = t.id := by
  unfold mkAgentResult
  cases ho : o t.id <;> simp [ho]

theorem mkAgentResult_ids (o : String → Option String) (R : List SubTask) :
    (R.map (mkAgentResult o)).map (fun r => r.sub_task_id) = R.map (fun t => t.id) := by
  induction R with
  | nil => rfl
  | cons a R ih => simp only [List.map_cons, mkAgentResult_id, ih]

theorem filter_results_nil (o : String → Option String) (R : List SubTask) (tid : String)
    (h : tid ∉ R.map (fun u => u.id)) :
    (R.map (mkAgentResult o)).filter (fun r => decide (r.sub_task_id = tid)) = [] := by
  induction R with
  | nil => rfl
  | cons a R ih =>
    simp only [List.map_cons, List.mem_cons, not_or] at h
    simp only [List.map_cons, List.filter_cons]
    rw [if_neg (by simp [mkAgentResult_id]; intro hc; exact h.1 hc.symm)]
    exact ih h.2

theorem filter_results_singleton (o : String → Option String) (R : List SubTask)
    (v : SubTask) (hnd : (R.map (fun u => u.id)).Nodup) (hm : v ∈ R) :
    (R.map (mkAgentResult o)).filter (fun r => decide (r.sub_task_id = v.id)) =
      [mkAgentResult o v] := by
  induction R with
  | nil => cases hm
  | cons a R ih =>
    simp only [List.map_cons, List.nodup_cons] at hnd
    rcases List.mem_cons.mp hm with rfl | hm2
    · simp only [List.map_cons, List.filter_cons]
      rw [if_pos (by simp [mkAgentResult_id]), filter_results_nil o R v.id hnd.1]
    · have hne : a.id ≠ v.id := by
        intro hc
        apply hnd.1
        rw [hc]
        exact List.mem_map.mpr ⟨v, hm2, rfl⟩
      simp only [List.map_cons, List.filter_cons]
      rw [if_neg (by simp [mkAgentResult_id, hne])]
      exact ih hnd.2 hm2

theorem resultFor_of_mem (o : String → Option String) (R : List SubTask) (v : SubTask)
    (hnd : (R.map (fun u => u.id)).Nodup) (hm : v ∈ R) :
    resultFor (R.map (mkAgentResult o)) v.id = some (mkAgentResult o v) := by
  unfold resultFor
  rw [filter_results_singleton o R v hnd hm]
  rfl

theorem resultFor_of_not_mem (o : String → Option String) (R : List SubTask) (tid : String)
    (h : tid ∉ R.map (fun u => u.id)) :
    resultFor (R.map (mkAgentResult o)) tid = none := by
  unfold resultFor
  rw [filter_results_nil o R tid h]
  rfl

theorem execUpd_id (results : List AgentResult) (t : SubTask) :
    (execUpd results t).id = t.id := by
  unfold execUpd
  cases hr : resultFor results t.id <;> simp [hr]

theorem execUpd_of_mem (o : String → Option String) (R : List SubTask) (v : SubTask)
    (hnd : (R.map (fun u => u.id)).Nodup) (hm : v ∈ R) :
    execUpd (R.map (mkAgentResult o)) v =
      { v with status := if (mkAgentResult o v).success then Status.completed
                         else Status.failed } := by
  unfold execUpd
  rw [resultFor_of_mem o R v hnd hm]

theorem execUpd_of_not_mem (o : String → Option String) (R : List SubTask) (v : SubTask)
    (h : v.id ∉ R.map (fun u => u.id)) :
    execUpd (R.map (mkAgentResult o)) v = v := by
  unfold execUpd
  rw [resultFor_of_not_mem o R v.id h]

theorem executeAgents_nonempty (o : String → Option String) (s1 : SwarmState)
    (h : (s1.sub_tasks.filter (hasStatus Status.running)).isEmpty = false) :
    executeAgents o s1 = { s1 with
      sub_tasks := s1.sub_tasks.map
        (execUpd ((s1.sub_tasks.filter (hasStatus Status.running)).map (mkAgentResult o))),
      running_agents := [],
      completed_results := s1.completed_results ++
        (s1.sub_tasks.filter (hasStatus Status.running)).map (mkAgentResult o),
      phase := SwarmPhase.spawning } := by
  simp only [executeAgents]
  rw [if_neg (by simp [h])]

theorem map_ids_of_id_preserving (f : SubTask → SubTask)
    (hf : ∀ t, (f t).id = t.id) (l : List SubTask) :
    (l.map f).map (fun t => t.id) = l.map (fun t => t.id) := by
  induction l with
  | nil => rfl
  | cons a l ih => simp only [List.map_cons, hf a, ih]

theorem length_filter_le_of_imp {α : Type} (p q : α → Bool) :
    ∀ l : List α, (∀ x ∈ l, p x = true → q x = true) →
      (l.filter p).length ≤ (l.filter q).length := by
  intro l
  induction l with
  | nil => intro _; simp
  | cons a l ih =>
    intro h
    have hl := ih (fun x hx => h x (List.mem_cons_of_mem a hx))
    simp only [List.filter_cons]
    cases hp : p a with
    | false =>
      rw [if_neg (by simp [hp])]
      cases hq : q a with
      | false => rw [if_neg (by simp [hq])]; exact hl
      | true =>
        rw [if_pos (by simp [hq])]
        simp only [List.length_cons]
        omega
    | true =>
      have hqa := h a (List.mem_cons_self a l) hp
      rw [if_pos (by simp [hp]), if_pos (by simp [hqa])]
      simp only [List.length_cons]
      omega

theorem length_filter_lt_of_witness {α : Type} (p q : α → Bool) :
    ∀ l : List α, (∀ x ∈ l, p x = true → q x = true) →
      ∀ x0, x0 ∈ l → q x0 = true → p x0 = false →
      (l.filter p).length < (l.filter q).length := by
  intro l
  induction l with
  | nil =>
    intro _ x0 h0
    cases h0
  | cons a l ih =>
    intro h x0 hx0 hq hp
    simp only [List.filter_cons]
    rcases List.mem_cons.mp hx0 with rfl | hx0'
    · rw [if_neg (by simp [hp]), if_pos (by simp [hq])]
      have := length_filter_le_of_imp p q l (fun x hx => h x (List.mem_cons_of_mem x0 hx))
      simp only [List.length_cons]
      omega
    · have hl := ih (fun x hx => h x (List.mem_cons_of_mem a hx)) x0 hx0' hq hp
      cases hpa : p a with
      | true =>
        have hqa := h a (List.mem_cons_self a l) hpa
        rw [if_pos (by simp [hpa]), if_pos (by simp [hqa])]
        simp only [List.length_cons]
        omega
      | false =>
        rw [if_neg (by simp [hpa])]
        cases hqa : q a with
        | true =>
          rw [if_pos (by simp [hqa])]
          simp only [List.length_cons]
          omega
        | false =>
          rw [if_neg (by simp [hqa])]
          exact hl

/-! ## Swarm loop invariant and termination measure -/

/-- Invariant at entry to the `spawn` node: distinct sub-task ids, no task in
flight, and no pending/ready task already has a result. -/
def SpawnInv (s : SwarmState) : Prop :=
  (s.sub_tasks.map (fun t => t.id)).Nodup ∧
  (∀ t ∈ s.sub_tasks, t.status ≠ Status.running) ∧
  (∀ t ∈ s.sub_tasks, (t.status = Status.pending ∨ t.status = Status.ready) →
    t.id ∉ completedIds s)

/-- Shape of a freshly decomposed swarm state, as produced by
`decompose_task`: distinct ids, every task pending or ready, no results yet.
This is the hypothesis class over which the termination claim quantifies
("every finite set of sub-tasks with any dependency graph"). -/
def InitOK (s : SwarmState) : Prop :=
  (s.sub_tasks.map (fun t => t.id)).Nodup ∧
  (∀ t ∈ s.sub_tasks, t.status = Status.pending ∨ t.status = Status.ready) ∧
  s.completed_results = []

/-- Termination measure: number of sub-task ids without a result yet. -/
def unresolvedCount (s : SwarmState) : Nat :=
  ((s.sub_tasks.map (fun t => t.id)).filter
    (fun i => !decide (i ∈ completedIds s))).length

theorem promoted_no_ready (c : List String) (l : List SubTask) :
    ∀ v ∈ l.map (promoteThenRun c), v.status ≠ Status.ready := by
  intro v hv
  obtain ⟨t, ht, rfl⟩ := List.mem_map.mp hv
  rw [promoteThenRun_status]
  by_cases h1 : t.status = Status.pending ∧ depsComplete c t = true
  · simp [h1]
  · rw [if_neg h1]
    by_cases h2 : t.status = Status.ready
    · simp [h2]
    · rw [if_neg h2]
      exact h2

theorem promoteThenRun_pending_eq (c : List String) (t : SubTask)
    (h : (promoteThenRun c t).status = Status.pending) :
    promoteThenRun c t = t ∧ t.status = Status.pending := by
  rw [promoteThenRun_status] at h
  by_cases h1 : t.status = Status.pending ∧ depsComplete c t = true
  · rw [if_pos h1] at h
    simp at h
  · rw [if_neg h1] at h
    by_cases h2 : t.status = Status.ready
    · rw [if_pos h2] at h
      simp at h
    · rw [if_neg h2] at h
      exact ⟨promoteThenRun_eq_self c t h1 h2, h⟩

theorem promoted_running_source (c : List String) (t : SubTask)
    (hnr : t.status ≠ Status.running)
    (hrun : (promoteThenRun c t).status = Status.running) :
    t.status = Status.pending ∨ t.status = Status.ready := by
  rw [promoteThenRun_status] at hrun
  by_cases h1 : t.status = Status.pending ∧ depsComplete c t = true
  · exact Or.inl h1.1
  · rw [if_neg h1] at hrun
    by_cases h2 : t.status = Status.ready
    · exact Or.inr h2
    · rw [if_neg h2] at hrun
      exact absurd hrun hnr

/-- With the spawn invariant and nothing ready after promotion, the
`_spawn_routing` edge out of `spawn` goes to `synthesize` (this covers both
the all-complete branch and the "waiting" empty-update branch of
`spawn_agents`, since no task is running). -/
theorem spawn_empty_routes_synthesize (s : SwarmState)
    (hnr : ∀ t ∈ s.sub_tasks, t.status ≠ Status.running)
    (he : (readyAfterPromote s).isEmpty = true) :
    spawnRouting (spawnAgents s) = "synthesize" := by
  have hsub := (spawnAgents_empty s he).1
  unfold spawnRouting
  rw [hsub]
  have hnil : s.sub_tasks.filter (hasStatus Status.running) = [] := by
    rw [List.filter_eq_nil_iff]
    intro t ht
    simp [hasStatus, hnr t ht]
  rw [hnil]
  rfl

/-- With no task ready or running, `should_continue_spawning` cannot answer
"execute". -/
theorem decision_not_execute (s2 : SwarmState)
    (h : ∀ t ∈ s2.sub_tasks, t.status ≠ Status.ready ∧ t.status ≠ Status.running) :
    shouldContinueSpawning s2 ≠ "execute" := by
  unfold shouldContinueSpawning
  by_cases h1 : (remainingTasks s2).isEmpty
  · simp [h1]
  · have hany : ((remainingTasks s2).any (fun t =>
        decide (t.status = Status.ready) || decide (t.status = Status.running))) = false := by
      rw [List.any_eq_false]
      intro t ht
      have hmem : t ∈ s2.sub_tasks := List.mem_of_mem_filter ht
      simp [(h t hmem).1, (h t hmem).2]
    simp only [h1, Bool.false_eq_true, if_false, hany]
    split <;> decide

theorem runSwarm_synth (o : String → Option String) (f : Nat) (s : SwarmState) :
    runSwarm o f SwarmNode.synthesize s = some (synthesizeResults s) := by
  cases f <;> rfl

theorem runSwarm_spawn (o : String → Option String) (f : Nat) (s : SwarmState) :
    runSwarm o (f + 1) SwarmNode.spawn s =
      runSwarm o f
        (if spawnRouting (spawnAgents s) = "execute" then SwarmNode.execute
         else SwarmNode.synthesize) (spawnAgents s) := rfl

theorem runSwarm_exec (o : String → Option String) (f : Nat) (s : SwarmState) :
    runSwarm o (f + 1) SwarmNode.execute s =
      runSwarm o f (decisionTarget (shouldContinueSpawning (executeAgents o s)))
        (executeAgents o s) := rfl

/-- Effect of one `execute_agents` batch: the invariant is preserved, every
task ends up neither ready nor running, and the number of sub-tasks without a
result strictly decreases (at least the running batch gains results). -/
theorem executeAgents_round (o : String → Option String) (s1 : SwarmState)
    (hnd1 : (s1.sub_tasks.map (fun t => t.id)).Nodup)
    (hready1 : ∀ v ∈ s1.sub_tasks, v.status ≠ Status.ready)
    (hfresh1 : ∀ v ∈ s1.sub_tasks,
      v.status = Status.running ∨ v.status = Status.pending →
      v.id ∉ completedIds s1)
    (v0 : SubTask) (hv0mem : v0 ∈ s1.sub_tasks) (hv0run : v0.status = Status.running) :
    SpawnInv (executeAgents o s1) ∧
    (∀ t ∈ (executeAgents o s1).sub_tasks,
      t.status ≠ Status.ready ∧ t.status ≠ Status.running) ∧
    unresolvedCount (executeAgents o s1) < unresolvedCount s1 := by
  have hv0R : v0 ∈ s1.sub_tasks.filter (hasStatus Status.running) :=
    List.mem_filter.mpr ⟨hv0mem, by simp [hasStatus, hv0run]⟩
  have hRne : (s1.sub_tasks.filter (hasStatus Status.running)).isEmpty = false :=
    isEmpty_false_of_mem hv0R
  have hs2 := executeAgents_nonempty o s1 hRne
  have hsub2 : (executeAgents o s1).sub_tasks =
      s1.sub_tasks.map (execUpd
        ((s1.sub_tasks.filter (hasStatus Status.running)).map (mkAgentResult o))) := by
    rw [hs2]
  have hres2 : (executeAgents o s1).completed_results =
      s1.completed_results ++
        (s1.sub_tasks.filter (hasStatus Status.running)).map (mkAgentResult o) := by
    rw [hs2]
  have hRndids : ((s1.sub_tasks.filter (hasStatus Status.running)).map
      (fun u => u.id)).Nodup :=
    hnd1.sublist ((List.filter_sublist _).map _)
  have hids2 : (executeAgents o s1).sub_tasks.map (fun t => t.id) =
      s1.sub_tasks.map (fun t => t.id) := by
    rw [hsub2]
    exact map_ids_of_id_preserving _ (execUpd_id _) _
  have hcomp2 : completedIds (executeAgents o s1) =
      completedIds s1 ++
        (s1.sub_tasks.filter (hasStatus Status.running)).map (fun u => u.id) := by
    unfold completedIds
    rw [hres2, List.map_append, mkAgentResult_ids]
  have hstat2 : ∀ w ∈ (executeAgents o s1).sub_tasks,
      (w.status ≠ Status.ready ∧ w.status ≠ Status.running) ∧
      ((w.status = Status.pending ∨ w.status = Status.ready) →
        w.id ∉ completedIds (executeAgents o s1)) := by
    intro w hw
    rw [hsub2] at hw
    obtain ⟨v, hv, rfl⟩ := List.mem_map.mp hw
    by_cases hvrun : v.status = Status.running
    · have hvR : v ∈ s1.sub_tasks.filter (hasStatus Status.running) :=
        List.mem_filter.mpr ⟨hv, by simp [hasStatus, hvrun]⟩
      have hupd := execUpd_of_mem o _ v hRndids hvR
      rw [hupd]
      refine ⟨⟨?_, ?_⟩, ?_⟩
      · dsimp only
        split <;> simp
      · dsimp only
        split <;> simp
      · intro hpr
        exfalso
        dsimp only at hpr
        rcases hpr with hp | hp <;> (split at hp <;> simp at hp)
    · have hvnot : v.id ∉ (s1.sub_tasks.filter (hasStatus Status.running)).map
          (fun u => u.id) := by
        intro hin
        obtain ⟨w', hw', hid⟩ := List.mem_map.mp hin
        have hw'mem : w' ∈ s1.sub_tasks := List.mem_of_mem_filter hw'
        have heq : w' = v := List.inj_on_of_nodup_map hnd1 hw'mem hv hid
        have hw'run : w'.status = Status.running := by
          have := (List.mem_filter.mp hw').2
          simpa [hasStatus] using this
        rw [heq] at hw'run
        exact hvrun hw'run
      have hupd := execUpd_of_not_mem o _ v hvnot
      rw [hupd]
      refine ⟨⟨hready1 v hv, hvrun⟩, ?_⟩
      intro hpr
      have hpend : v.status = Status.pending := by
        rcases hpr with hp | hp
        · exact hp
        · exact absurd hp (hready1 v hv)
      rw [hcomp2]
      intro hmem
      rcases List.mem_append.mp hmem with hmem | hmem
      · exact hfresh1 v hv (Or.inr hpend) hmem
      · exact hvnot hmem
  refine ⟨⟨by rw [hids2]; exact hnd1, ?_, ?_⟩, ?_, ?_⟩
  · intro t ht
    exact ((hstat2 t ht).1).2
  · intro t ht hpr
    exact (hstat2 t ht).2 hpr
  · intro t ht
    exact (hstat2 t ht).1
  · unfold unresolvedCount
    rw [hids2, hcomp2]
    refine length_filter_lt_of_witness _ _ _ ?_ v0.id ?_ ?_ ?_
    · intro x _ hpx
      simp only [Bool.not_eq_true', decide_eq_false_iff_not] at hpx ⊢
      intro hc
      exact hpx (List.mem_append.mpr (Or.inl hc))
    · exact List.mem_map.mpr ⟨v0, hv0mem, rfl⟩
    · simp only [Bool.not_eq_true', decide_eq_false_iff_not]
      exact hfresh1 v0 hv0mem (Or.inl hv0run)
    · simp only [Bool.not_eq_false', decide_eq_true_eq]
      exact List.mem_append.mpr (Or.inr (List.mem_map.mpr ⟨v0, hv0R, rfl⟩))

/-- Effect of one spawn–execute round when something is ready: the routing
edge goes to `execute`, the invariant survives, no task is left ready or
running, and the termination measure strictly decreases. -/
theorem spawn_execute_round (o : String → Option String) (s : SwarmState)
    (hInv : SpawnInv s) (hne : (readyAfterPromote s).isEmpty = false) :
    spawnRouting (spawnAgents s) = "execute" ∧
    SpawnInv (executeAgents o (spawnAgents s)) ∧
    (∀ t ∈ (executeAgents o (spawnAgents s)).sub_tasks,
      t.status ≠ Status.ready ∧ t.status ≠ Status.running) ∧
    unresolvedCount (executeAgents o (spawnAgents s)) < unresolvedCount s := by
  obtain ⟨hnd, hnr, hfresh⟩ := hInv
  have hs1 := spawnAgents_nonempty s hne
  have hsub1 : (spawnAgents s).sub_tasks =
      s.sub_tasks.map (promoteThenRun (completedIds s)) := by rw [hs1]
  have hres1 : (spawnAgents s).completed_results = s.completed_results := by rw [hs1]
  have hcomp1 : completedIds (spawnAgents s) = completedIds s := by
    unfold completedIds
    rw [hres1]
  have hids1 : (spawnAgents s).sub_tasks.map (fun t => t.id) =
      s.sub_tasks.map (fun t => t.id) := by
    rw [hsub1]
    exact map_ids_of_id_preserving _ (promoteThenRun_id _) _
  have hnd1 : ((spawnAgents s).sub_tasks.map (fun t => t.id)).Nodup := by
    rw [hids1]
    exact hnd
  have hready1 : ∀ v ∈ (spawnAgents s).sub_tasks, v.status ≠ Status.ready := by
    rw [hsub1]
    exact promoted_no_ready _ _
  have hfresh1 : ∀ v ∈ (spawnAgents s).sub_tasks,
      v.status = Status.running ∨ v.status = Status.pending →
      v.id ∉ completedIds (spawnAgents s) := by
    intro v hv hvs
    rw [hcomp1]
    rw [hsub1] at hv
    obtain ⟨t, ht, rfl⟩ := List.mem_map.mp hv
    rw [promoteThenRun_id]
    rcases hvs with hrun | hpend
    · exact hfresh t ht (promoted_running_source _ t (hnr t ht) hrun)
    · obtain ⟨_, hpt⟩ := promoteThenRun_pending_eq _ t hpend
      exact hfresh t ht (Or.inl hpt)
  have hv0 : ∃ v ∈ (spawnAgents s).sub_tasks, v.status = Status.running := by
    have hnenil : readyAfterPromote s ≠ [] := by
      intro h0
      rw [h0] at hne
      exact absurd hne (by decide)
    obtain ⟨u, hu⟩ := List.exists_mem_of_ne_nil _ hnenil
    obtain ⟨humem, hur⟩ := List.mem_filter.mp hu
    obtain ⟨t0, ht0, rfl⟩ := List.mem_map.mp humem
    have hst : (promoteTask (completedIds s) t0).status = Status.ready := by
      simpa [hasStatus] using hur
    refine ⟨promoteThenRun (completedIds s) t0, ?_, ?_⟩
    · rw [hsub1]
      exact List.mem_map.mpr ⟨t0, ht0, rfl⟩
    · rw [promoteThenRun_status]
      by_cases h1 : t0.status = Status.pending ∧ depsComplete (completedIds s) t0 = true
      · rw [if_pos h1]
      · rw [if_neg h1]
        have h2 : t0.status = Status.ready := by
          unfold promoteTask at hst
          rw [if_neg h1] at hst
          exact hst
        rw [if_pos h2]
  obtain ⟨v0, hv0mem, hv0run⟩ := hv0
  have hroute : spawnRouting (spawnAgents s) = "execute" := by
    have hfalse := isEmpty_false_of_mem
      (List.mem_filter.mpr ⟨hv0mem,
        (by simp [hasStatus, hv0run] : hasStatus Status.running v0 = true)⟩)
    simp [spawnRouting, hfalse]
  have hB := executeAgents_round o (spawnAgents s) hnd1 hready1 hfresh1 v0 hv0mem hv0run
  have hcnt1 : unresolvedCount (spawnAgents s) = unresolvedCount s := by
    unfold unresolvedCount
    rw [hids1, hcomp1]
  refine ⟨hroute, hB.1, hB.2.1, ?_⟩
  rw [← hcnt1]
  exact hB.2.2

/-- Main loop induction: from the `spawn` node with the invariant, fuel
`2*k + 2` suffices whenever at most `k` sub-tasks still lack results. -/
theorem swarm_loop_reaches (o : String → Option String) :
    ∀ (k : Nat) (s : SwarmState) (f : Nat), SpawnInv s → unresolvedCount s ≤ k →
      2 * k + 2 ≤ f → (runSwarm o f SwarmNode.spawn s).isSome = true := by
  intro k
  induction k with
  | zero =>
    intro s f hInv hcnt hf
    obtain ⟨f1, rfl⟩ : ∃ f1, f = f1 + 1 := ⟨f - 1, by omega⟩
    cases he : (readyAfterPromote s).isEmpty with
    | true =>
      have hns : spawnRouting (spawnAgents s) ≠ "execute" := by
        rw [spawn_empty_routes_synthesize s hInv.2.1 he]
        decide
      rw [runSwarm_spawn, if_neg hns, runSwarm_synth]
      rfl
    | false =>
      exfalso
      have hround := spawn_execute_round o s hInv he
      have := hround.2.2.2
      omega
  | succ k ih =>
    intro s f hInv hcnt hf
    cases he : (readyAfterPromote s).isEmpty with
    | true =>
      obtain ⟨f1, rfl⟩ : ∃ f1, f = f1 + 1 := ⟨f - 1, by omega⟩
      have hns : spawnRouting (spawnAgents s) ≠ "execute" := by
        rw [spawn_empty_routes_synthesize s hInv.2.1 he]
        decide
      rw [runSwarm_spawn, if_neg hns, runSwarm_synth]
      rfl
    | false =>
      obtain ⟨f2, rfl⟩ : ∃ f2, f = f2 + 1 + 1 := ⟨f - 2, by omega⟩
      have hround := spawn_execute_round o s hInv he
      rw [runSwarm_spawn, if_pos hround.1, runSwarm_exec]
      have hd : shouldContinueSpawning (executeAgents o (spawnAgents s)) ≠ "execute" :=
        decision_not_execute _ hround.2.2.1
      by_cases hsp : shouldContinueSpawning (executeAgents o (spawnAgents s)) = "spawn"
      · rw [hsp]
        have hT : decisionTarget "spawn" = SwarmNode.spawn := rfl
        rw [hT]
        refine ih _ f2 hround.2.1 ?_ (by omega)
        have := hround.2.2.2
        omega
      · have hT : decisionTarget (shouldContinueSpawning (executeAgents o (spawnAgents s))) =
            SwarmNode.synthesize := by
          unfold decisionTarget
          rw [if_neg hsp, if_neg hd]
        rw [hT, runSwarm_synth]
        rfl

theorem initOK_spawnInv (s : SwarmState) (h : InitOK s) : SpawnInv s := by
  obtain ⟨hnd, hst, hres⟩ := h
  refine ⟨hnd, ?_, ?_⟩
  · intro t ht
    rcases hst t ht with h1 | h1 <;> simp [h1]
  · intro t ht _
    unfold completedIds
    rw [hres]
    simp

theorem unresolvedCount_le_length (s : SwarmState) :
    unresolvedCount s ≤ s.sub_tasks.length := by
  unfold unresolvedCount
  calc ((s.sub_tasks.map (fun t => t.id)).filter
          (fun i => !decide (i ∈ completedIds s))).length
      ≤ (s.sub_tasks.map (fun t => t.id)).length := List.length_filter_le _ _
    _ = s.sub_tasks.length := List.length_map _ _

/-! ## Claim C1: swarm termination and deadlock escape -/

/-- C1: for every finite set of sub-tasks with any dependency graph (acyclic
or permanently blocked), repeated application of `spawn_agents`,
`execute_agents` and `should_continue_spawning` — i.e. the swarm subgraph
loop `runSwarm` — reaches the `synthesize` step within a number of rounds
bounded by the number of sub-tasks: fuel `2*n + 2` (at most `n`
spawn–execute rounds plus the final detection step, `n` the number of
sub-tasks) always suffices.  In particular, the deadlock branch of
`should_continue_spawning` answers "synthesize" whenever no remaining task
is ready, running, or has all of its dependencies satisfied. -/
theorem swarm_termination_and_deadlock_escape :
    (∀ (outcome : String → Option String) (s : SwarmState), InitOK s →
      (runSwarm outcome (2 * s.sub_tasks.length + 2) SwarmNode.spawn s).isSome = true) ∧
    (∀ s : SwarmState,
      (∀ t ∈ remainingTasks s, t.status ≠ Status.ready ∧ t.status ≠ Status.running ∧
        depsComplete (completedIds s) t = false) →
      shouldContinueSpawning s = "synthesize") := by
  constructor
  · intro o s hinit
    exact swarm_loop_reaches o s.sub_tasks.length s _ (initOK_spawnInv s hinit)
      (unresolvedCount_le_length s) (le_refl _)
  · intro s h
    unfold shouldContinueSpawning
    by_cases h1 : (remainingTasks s).isEmpty
    · simp [h1]
    · have hany1 : ((remainingTasks s).any (fun t =>
          decide (t.status = Status.ready) || decide (t.status = Status.running))) = false := by
        rw [List.any_eq_false]
        intro t ht
        simp [(h t ht).1, (h t ht).2.1]
      have hany2 : ((remainingTasks s).any
          (fun t => depsComplete (completedIds s) t)) = false := by
        rw [List.any_eq_false]
        intro t ht
        simp [(h t ht).2.2]
      simp [h1, hany1, hany2]

def c1CycState : SwarmState :=
  { swarm_id := "swarm-1", conversation_id := "conv", user_request := "req",
    cwd := "/", sub_tasks := [c2Task "x" ["y"] Status.pending, c2Task "y" ["x"] Status.pending],
    phase := SwarmPhase.spawning }

theorem swarm_termination_and_deadlock_escape_witness :
    (runSwarm (fun _ => none) (2 * c1CycState.sub_tasks.length + 2)
      SwarmNode.spawn c1CycState).isSome = true ∧
    shouldContinueSpawning c1CycState = "synthesize" :=
  ⟨swarm_termination_and_deadlock_escape.1 (fun _ => none) c1CycState
     ⟨by decide, by decide, rfl⟩,
   swarm_termination_and_deadlock_escape.2 c1CycState (by decide)⟩

end Lugh
